import Mathlib

/-!
Verification of the Adafruit CCS811 Python driver
(`src/Adafruit_CCS811/Adafruit_CCS811.py`) against its natural-language
specification, via a shallow embedding in Lean 4.

Conventions of the embedding:
* Bytes and registers are `Nat` (masked explicitly where the code masks).
* The sensor device is a record `Device` giving the register contents the
  bus would return; bus transactions performed by a driver call are
  returned as an explicit `BusOp` trace.
* Stateful driver methods become explicit state passing on the record
  `Adafruit_CCS811` (the driver's mutable attributes).
* Python exceptions become `Except PyError`; Python dynamic-typing errors
  (for example shifting a `float`) are modelled by `PyNum` operations that
  return `Except.error PyError.typeError` exactly where CPython raises.
-/

/-! ## Register constants (source lines 27-56) -/

def CCS811_ADDRESS : Nat := 0x5A

def CCS811_STATUS : Nat := 0x00

def CCS811_MEAS_MODE : Nat := 0x01

def CCS811_ALG_RESULT_DATA : Nat := 0x02

def CCS811_ENV_DATA : Nat := 0x05

def CCS811_NTC : Nat := 0x06

def CCS811_THRESHOLDS : Nat := 0x10

def CCS811_HW_ID : Nat := 0x20

def CCS811_SW_RESET : Nat := 0xFF

def CCS811_BOOTLOADER_APP_START : Nat := 0xF4

def CCS811_DRIVE_MODE_IDLE : Nat := 0x00

def CCS811_DRIVE_MODE_1SEC : Nat := 0x01

def CCS811_DRIVE_MODE_10SEC : Nat := 0x02

def CCS811_DRIVE_MODE_60SEC : Nat := 0x03

def CCS811_DRIVE_MODE_250MS : Nat := 0x04

def CCS811_HW_ID_CODE : Nat := 0x81

def CCS811_REF_RESISTOR : Nat := 100000

/-! ## Python exceptions raised by the code paths we model -/

inductive PyError where
  | valueError
  | typeError
  | zeroDivisionError
  | exception
deriving DecidableEq

/-! ## Status register mirror (source line 72)

`self._status = Adafruit_bitfield([('ERROR', 1), ('unused', 2),
('DATA_READY', 1), ('APP_VALID', 1), ('unused2', 2), ('FW_MODE', 1)])`.
Fields are packed least-significant-first, so ERROR is bit 0, DATA_READY
bit 3, FW_MODE bit 7.  The mirror stores the raw byte written by
`self._status.set(...)`; reading a field shifts and masks that byte. -/

def STATUS_ERROR (b : Nat) : Nat := b &&& 1

def STATUS_DATA_READY (b : Nat) : Nat := (b >>> 3) &&& 1

def STATUS_FW_MODE (b : Nat) : Nat := (b >>> 7) &&& 1

/-! ## Measurement-mode register mirror (source line 74)

`self._meas_mode = Adafruit_bitfield([('unused', 2), ('INT_THRESH', 1),
('INT_DATARDY', 1), ('DRIVE_MODE', 3)])`: unused bits 0-1, INT_THRESH
bit 2, INT_DATARDY bit 3, DRIVE_MODE bits 4-6.  Field writes mask the
value to the field width; `get()` OR-combines the masked, shifted
fields (bitfield semantics per spec section 3, the `Adafruit_bitfield`
package itself not being part of this repository). -/

structure MeasMode where
  unused : Nat
  INT_THRESH : Nat
  INT_DATARDY : Nat
  DRIVE_MODE : Nat
deriving DecidableEq

def MeasMode.init : MeasMode := { unused := 0, INT_THRESH := 0, INT_DATARDY := 0, DRIVE_MODE := 0 }

def MeasMode.get (m : MeasMode) : Nat :=
  (m.unused &&& 3) ||| ((m.INT_THRESH &&& 1) <<< 2) |||
    ((m.INT_DATARDY &&& 1) <<< 3) ||| ((m.DRIVE_MODE &&& 7) <<< 4)

def MeasMode.setDriveModeField (m : MeasMode) (v : Nat) : MeasMode :=
  { m with DRIVE_MODE := v &&& 7 }

def MeasMode.setIntDatardyField (m : MeasMode) (v : Nat) : MeasMode :=
  { m with INT_DATARDY := v &&& 1 }

/-! ## The device and the bus-operation trace -/

/-- The register contents the sensor presents on the bus: the HW_ID byte,
the STATUS byte, the 8-byte ALG_RESULT_DATA block and the 4-byte NTC
block.  Reads are pure: the device state is fixed during a call. -/
structure Device where
  hw_id : Nat
  status : Nat
  alg_result : List Nat
  ntc : List Nat

/-- One bus transaction, as issued through the I2C device object
(`readU8`, `readList`, `write8`, `writeList`). -/
inductive BusOp where
  | readU8 (reg : Nat)
  | readList (reg : Nat) (count : Nat)
  | write8 (reg : Nat) (val : Nat)
  | writeList (reg : Nat) (data : List Nat)
deriving DecidableEq

/-- The mutable attributes of the Python `Adafruit_CCS811` object:
the measurement-mode mirror, the raw byte last stored in the status
mirror, and the last-decoded measurements `_eCO2` and `_TVOC`. -/
structure Adafruit_CCS811 where
  meas_mode : MeasMode
  status : Nat
  eCO2 : Nat
  TVOC : Nat
deriving DecidableEq

/-- `checkError` (source lines 209-212): refresh the status mirror from the
STATUS register, return the ERROR field value (an int, used for its
truthiness by the caller). -/
def Adafruit_CCS811.checkError (dev : Device) (s : Adafruit_CCS811) :
    Nat × Adafruit_CCS811 × List BusOp :=
  ({ s with status := dev.status }.status &&& 1,
   { s with status := dev.status },
   [BusOp.readU8 CCS811_STATUS])

/-- `available` (source lines 120-126): refresh the status mirror, return
False when the DATA_READY field is 0, True otherwise. -/
def Adafruit_CCS811.available (dev : Device) (s : Adafruit_CCS811) :
    Bool × Adafruit_CCS811 × List BusOp :=
  let s2 : Adafruit_CCS811 := { s with status := dev.status }
  if STATUS_DATA_READY s2.status = 0 then
    (false, s2, [BusOp.readU8 CCS811_STATUS])
  else
    (true, s2, [BusOp.readU8 CCS811_STATUS])

/-- The Python value returned by `readData`: the bool `False` on the
no-data path, an int (`buf[5]` or `0`) otherwise.  In Python these are
distinguishable by type (`False == 0` but `False is not 0`). -/
inductive PyRet where
  | pyBool (b : Bool)
  | pyInt (n : Nat)
deriving DecidableEq

/-- `readData` (source lines 129-143): if not available, return False;
otherwise read the 8-byte ALG_RESULT_DATA block, store
`_eCO2 = buf[0] << 8 | buf[1]` and `_TVOC = buf[2] << 8 | buf[3]`, and
return `buf[5]` when the status mirror's ERROR field is set, else 0. -/
def Adafruit_CCS811.readData (dev : Device) (s : Adafruit_CCS811) :
    PyRet × Adafruit_CCS811 × List BusOp :=
  match Adafruit_CCS811.available dev s with
  | (false, s1, ops) => (PyRet.pyBool false, s1, ops)
  | (true, s1, ops) =>
    let buf := dev.alg_result
    let s2 : Adafruit_CCS811 :=
      { s1 with eCO2 := ((buf.getD 0 0) <<< 8) ||| (buf.getD 1 0),
                TVOC := ((buf.getD 2 0) <<< 8) ||| (buf.getD 3 0) }
    if STATUS_ERROR s2.status ≠ 0 then
      (PyRet.pyInt (buf.getD 5 0), s2, ops ++ [BusOp.readList CCS811_ALG_RESULT_DATA 8])
    else
      (PyRet.pyInt 0, s2, ops ++ [BusOp.readList CCS811_ALG_RESULT_DATA 8])

/-- `setDriveMode` (source lines 102-105): set the DRIVE_MODE field of the
measurement-mode mirror and write the full mirror byte to MEAS_MODE. -/
def Adafruit_CCS811.setDriveMode (s : Adafruit_CCS811) (mode : Nat) :
    Adafruit_CCS811 × List BusOp :=
  let m := s.meas_mode.setDriveModeField mode
  ({ s with meas_mode := m }, [BusOp.write8 CCS811_MEAS_MODE m.get])

/-- `disableInterrupt` (source lines 114-117): clear INT_DATARDY and write
the mirror byte to MEAS_MODE. -/
def Adafruit_CCS811.disableInterrupt (s : Adafruit_CCS811) :
    Adafruit_CCS811 × List BusOp :=
  let m := s.meas_mode.setIntDatardyField 0
  ({ s with meas_mode := m }, [BusOp.write8 CCS811_MEAS_MODE m.get])

/-- `getTVOC` (source lines 214-215). -/
def Adafruit_CCS811.getTVOC (s : Adafruit_CCS811) : Nat := s.TVOC

/-- `geteCO2` (source lines 217-218). -/
def Adafruit_CCS811.geteCO2 (s : Adafruit_CCS811) : Nat := s.eCO2

/-- The list of valid drive modes checked at source line 62. -/
def driveModes : List Nat :=
  [CCS811_DRIVE_MODE_IDLE, CCS811_DRIVE_MODE_1SEC, CCS811_DRIVE_MODE_10SEC,
   CCS811_DRIVE_MODE_60SEC, CCS811_DRIVE_MODE_250MS]

/-- `__init__` (source lines 59-99): validate the mode (raising ValueError
before any bus transaction), create the I2C device object (no bus
traffic), build the register mirrors and zero `_TVOC` and `_eCO2`, check
HW_ID, issue the zero-length APP_START write, check for a device error
and for application mode, disable the data-ready interrupt, and finally
call `setDriveMode(CCS811_DRIVE_MODE_1SEC)` (source line 99) - the
validated `mode` argument is not used there.  Returns the constructed
object or the raised exception, together with the bus-operation trace. -/
def Adafruit_CCS811.init (mode : Nat) (dev : Device) :
    Except PyError Adafruit_CCS811 × List BusOp :=
  if mode ∉ driveModes then
    (Except.error PyError.valueError, [])
  else
    let s0 : Adafruit_CCS811 :=
      { meas_mode := MeasMode.init, status := 0, eCO2 := 0, TVOC := 0 }
    if dev.hw_id ≠ CCS811_HW_ID_CODE then
      (Except.error PyError.exception, [BusOp.readU8 CCS811_HW_ID])
    else
      let ops0 : List BusOp :=
        [BusOp.readU8 CCS811_HW_ID, BusOp.writeList CCS811_BOOTLOADER_APP_START []]
      match Adafruit_CCS811.checkError dev s0 with
      | (err, s1, ops1) =>
        if err ≠ 0 then
          (Except.error PyError.exception, ops0 ++ ops1)
        else if STATUS_FW_MODE s1.status = 0 then
          (Except.error PyError.exception, ops0 ++ ops1)
        else
          match Adafruit_CCS811.disableInterrupt s1 with
          | (s2, ops2) =>
            match Adafruit_CCS811.setDriveMode s2 CCS811_DRIVE_MODE_1SEC with
            | (s3, ops3) => (Except.ok s3, ops0 ++ ops1 ++ ops2 ++ ops3)

/-- `setThresholds` (source lines 195-199): the register written and the
5-byte buffer, exactly as the source builds it. -/
def Adafruit_CCS811.setThresholds (low_med med_high hysteresis : Nat) : Nat × List Nat :=
  (CCS811_THRESHOLDS,
   [(low_med >>> 8) &&& 0xF, low_med &&& 0xF,
    (med_high >>> 8) &&& 0xF, med_high &&& 0xF, hysteresis])

/-! ## Python numeric values for `setEnvironmentalData` and `calculateTemperature`

`setEnvironmentalData` (source lines 147-174) applies `<<`, `&`, `|` and
`math.fmod` to its float arguments.  CPython raises TypeError when a
bitwise operator or shift receives a float, raises TypeError when
`math.fmod` is called with a single argument, and raises
ZeroDivisionError when `/` divides by zero (also for floats).  `PyNum`
models an int-or-float Python number (floats as exact rationals: every
literal involved, such as `0.001953125 = 1/512`, is a dyadic rational)
and the operations below return exactly the exception CPython raises. -/

inductive PyNum where
  | int (n : Int)
  | float (q : ℚ)
deriving DecidableEq

def PyNum.toRat : PyNum → ℚ
  | .int n => (n : ℚ)
  | .float q => q

/-- Python `<<`: only defined on ints; a negative shift count raises
ValueError, a float operand raises TypeError. -/
def PyNum.lshift : PyNum → PyNum → Except PyError PyNum
  | .int a, .int b =>
    if b < 0 then Except.error PyError.valueError
    else Except.ok (PyNum.int (a * 2 ^ b.toNat))
  | _, _ => Except.error PyError.typeError

/-- Python `>>`: only defined on ints. -/
def PyNum.rshift : PyNum → PyNum → Except PyError PyNum
  | .int a, .int b =>
    if b < 0 then Except.error PyError.valueError
    else Except.ok (PyNum.int (a >>> b.toNat))
  | _, _ => Except.error PyError.typeError

/-- Python `&`: only defined on ints. -/
def PyNum.land : PyNum → PyNum → Except PyError PyNum
  | .int a, .int b => Except.ok (PyNum.int (Int.land a b))
  | _, _ => Except.error PyError.typeError

/-- Python `|`: only defined on ints. -/
def PyNum.lor : PyNum → PyNum → Except PyError PyNum
  | .int a, .int b => Except.ok (PyNum.int (Int.lor a b))
  | _, _ => Except.error PyError.typeError

/-- Python `+`: int + int is an int, otherwise a float. -/
def PyNum.add : PyNum → PyNum → PyNum
  | .int a, .int b => PyNum.int (a + b)
  | a, b => PyNum.float (a.toRat + b.toRat)

/-- Python 3 true division `/`: always a float; raises ZeroDivisionError
when the divisor is zero (for ints and floats alike). -/
def PyNum.div (a b : PyNum) : Except PyError PyNum :=
  if b.toRat = 0 then Except.error PyError.zeroDivisionError
  else Except.ok (PyNum.float (a.toRat / b.toRat))

/-- `math.fmod(temperature)` as called at source line 163: `math.fmod`
requires exactly two arguments, so CPython raises TypeError
unconditionally.  The result is then subscripted (`parts[0]`,
`parts[1]`), hence the pair result type of this model. -/
def fmod_one_argument (_t : PyNum) : Except PyError (PyNum × PyNum) :=
  Except.error PyError.typeError

/-- `setEnvironmentalData` (source lines 147-174), line by line.  On
success it would return the target register and the 4-byte buffer handed
to `writeList`; every Python-level exception surfaces as `Except.error`.
The source's own docstrings state the intended encoding (50% humidity
and 25 C both encode as `0x64, 0x00`). -/
def Adafruit_CCS811.setEnvironmentalData (humidity temperature : PyNum) :
    Except PyError (Nat × List PyNum) := do
  let hum_perc ← PyNum.lshift humidity (PyNum.int 1)
  let parts ← fmod_one_argument temperature
  let fractional := parts.1
  let temperature2 := parts.2
  let temp_high ← PyNum.lshift (PyNum.add temperature2 (PyNum.int 25)) (PyNum.int 9)
  let quotient ← PyNum.div fractional (PyNum.float (1 / 512))
  let temp_low ← PyNum.land quotient (PyNum.int 0x1FF)
  let temp_conv ← PyNum.lor temp_high temp_low
  let shifted ← PyNum.rshift temp_conv (PyNum.int 8)
  let b2 ← PyNum.land shifted (PyNum.int 0xFF)
  let b3 ← PyNum.land temp_conv (PyNum.int 0xFF)
  Except.ok (CCS811_ENV_DATA, [hum_perc, PyNum.int 0, b2, b3])

/-- `calculateTemperature` (source lines 179-192), embedded up to the
point that decides the division-by-zero behaviour: decode `vref` from
NTC bytes 0-1 and `vrntc` from bytes 2-3 (big-endian), then compute
`rntc = float(vrntc) * float(CCS811_REF_RESISTOR) / float(vref)`
(source line 185).  CPython raises ZeroDivisionError there when
`vref = 0`.  The remaining lines (187-192) apply `math.log` and
affine float arithmetic to `rntc` and perform no further division by a
computed quantity, so they cannot be reached on the `vref = 0` path;
being transcendental real arithmetic they are outside this exact
embedding. -/
def Adafruit_CCS811.calculateTemperature_rntc (buf : List Nat) : Except PyError ℚ := do
  let vref : Nat := ((buf.getD 0 0) <<< 8) ||| (buf.getD 1 0)
  let vrntc : Nat := ((buf.getD 2 0) <<< 8) ||| (buf.getD 3 0)
  let rntc ← PyNum.div
    (PyNum.float ((vrntc : ℚ) * (CCS811_REF_RESISTOR : ℚ)))
    (PyNum.float (vref : ℚ))
  Except.ok rntc.toRat

/-! ## The BitField codec (claim C9)

Modelled from the spec: the `Adafruit_bitfield` package is imported at
source line 23 but its source is not part of this repository; only its
use (source lines 72-76) is.  Spec section 3: "fields are packed
least-significant-first in declaration order; each field's value is
masked to its declared width on write (values are truncated silently,
not rejected) and shifted into its position; reading reconstructs the
full byte from all field values, or a single field value is extracted by
shifting and masking".  Spec section 4.1: "encode(fields) -> byte:
OR-combines each field's masked, shifted value". -/

/-- A named sub-field descriptor together with its currently stored
value: the field's name, declared bit width, and value. -/
structure BField where
  name : String
  width : Nat
  val : Nat
deriving DecidableEq

/-- Modelled from the spec (section 4.1): encode OR-combines each field's
masked, shifted value, fields packed least-significant-first starting at
bit position `pos`. -/
def encodeFields : Nat → List BField → Nat
  | _, [] => 0
  | pos, f :: rest =>
    ((f.val &&& (2 ^ f.width - 1)) <<< pos) ||| encodeFields (pos + f.width) rest

/-- Modelled from the spec (section 3): a single field value is extracted
from the byte by shifting and masking. -/
def decodeField (b pos w : Nat) : Nat := (b >>> pos) &&& (2 ^ w - 1)

/-- The bit position of field `i` in a layout: the sum of the widths of
the fields declared before it (least-significant-first packing). -/
def fieldPos (l : List BField) (i : Nat) : Nat := ((l.take i).map BField.width).sum

/-! ## Concrete instances used by witnesses -/

/-- A healthy device: correct HW_ID, status `0x98` (FW_MODE = 1,
APP_VALID = 1, DATA_READY = 1, ERROR = 0), a measurement payload whose
big-endian words are eCO2 = 400 and TVOC = 50. -/
def goodDevice : Device :=
  { hw_id := 0x81, status := 0x98,
    alg_result := [0x01, 0x90, 0x00, 0x32, 0, 0, 0, 0], ntc := [0, 0, 0, 100] }

/-- A device reporting an error: status `0x89` (FW_MODE = 1,
DATA_READY = 1, ERROR = 1); payload byte 5 is the raw error code 0xAB. -/
def errorDevice : Device :=
  { hw_id := 0x81, status := 0x89,
    alg_result := [0x01, 0x90, 0x00, 0x32, 0, 0xAB, 0, 0], ntc := [0, 0, 0, 100] }

/-- A device with no data ready: status `0x90` (FW_MODE = 1,
APP_VALID = 1, DATA_READY = 0). -/
def noDataDevice : Device :=
  { hw_id := 0x81, status := 0x90,
    alg_result := [0x01, 0x90, 0x00, 0x32, 0, 0, 0, 0], ntc := [0, 0, 0, 100] }

/-- A driver state with nonzero stored measurements, to observe that the
no-data path of `readData` leaves them untouched. -/
def someState : Adafruit_CCS811 :=
  { meas_mode := MeasMode.init, status := 0, eCO2 := 123, TVOC := 45 }

/-- A small bitfield layout (widths 1 + 2 + 1 = 4 ≤ 8) whose DATA_READY
field holds the out-of-width value 3, exercising the truncation half of
the round-trip law. -/
def exampleLayout : List BField :=
  [⟨"ERROR", 1, 1⟩, ⟨"unused", 2, 6⟩, ⟨"DATA_READY", 1, 3⟩]

/-! ## Helper lemmas -/

/-- Disjoint OR is addition: when `b` fits in `w` bits, OR-ing it below a
left-shifted value is the same as big-endian recombination. -/
theorem shiftLeft_lor_eq_add (a b w : Nat) (hb : b < 2 ^ w) :
    ((a <<< w) ||| b) = 2 ^ w * a + b := by
  apply Nat.eq_of_testBit_eq
  intro j
  rw [Nat.testBit_lor, Nat.testBit_shiftLeft, Nat.testBit_mul_pow_two_add a hb j]
  by_cases hj : j < w
  · have h1 : ¬ (j ≥ w) := by omega
    simp [hj, h1]
  · have h1 : j ≥ w := by omega
    have h2 : b.testBit j = false := by
      apply Nat.testBit_lt_two_pow
      calc b < 2 ^ w := hb
        _ ≤ 2 ^ j := Nat.pow_le_pow_right (by omega) h1
    simp [hj, h1, h2]

/-- An element read through `getD` inside the list bounds satisfies any
bound satisfied by all elements of the list. -/
theorem getD_lt_of_forall (l : List Nat) (i : Nat) (hi : i < l.length)
    (hb : ∀ b ∈ l, b < 256) : l.getD i 0 < 256 := by
  rw [List.getD_eq_getElem l 0 hi]
  exact hb _ (List.getElem_mem hi)

/-- When DATA_READY is set in the status byte the device returns,
`available` returns True, refreshing the status mirror. -/
theorem available_true (dev : Device) (s : Adafruit_CCS811)
    (h : STATUS_DATA_READY dev.status ≠ 0) :
    Adafruit_CCS811.available dev s
      = (true, { s with status := dev.status }, [BusOp.readU8 CCS811_STATUS]) := by
  simp [Adafruit_CCS811.available, h]

/-- When DATA_READY is clear in the status byte the device returns,
`available` returns False, refreshing the status mirror. -/
theorem available_false (dev : Device) (s : Adafruit_CCS811)
    (h : STATUS_DATA_READY dev.status = 0) :
    Adafruit_CCS811.available dev s
      = (false, { s with status := dev.status }, [BusOp.readU8 CCS811_STATUS]) := by
  simp [Adafruit_CCS811.available, h]

/-! ## Claim theorems -/

/-- C6: for every mode value outside the five drive-mode enumerants,
construction fails with ValueError (Python's invalid-argument error)
and the bus-operation trace is empty: the validation at source lines
62-63 precedes every bus transaction. -/
theorem init_invalid_mode_no_bus_C6 (mode : Nat) (dev : Device)
    (h : mode ∉ driveModes) :
    Adafruit_CCS811.init mode dev = (Except.error PyError.valueError, []) := by
  unfold Adafruit_CCS811.init
  rw [if_pos h]

/-- Witness for C6 at mode = 5 on a healthy device. -/
theorem init_invalid_mode_no_bus_C6_witness :
    (5 : Nat) ∉ driveModes
    ∧ Adafruit_CCS811.init 5 goodDevice = (Except.error PyError.valueError, []) :=
  ⟨by decide, init_invalid_mode_no_bus_C6 5 goodDevice (by decide)⟩

/-- C7: whenever the status register's DATA_READY bit reads as 0,
`readData` returns Python `False` (the no-data sentinel, distinguishable
by type from the int 0) and the bus trace holds only the one-byte STATUS
read: the 8-byte ALG_RESULT_DATA read is not issued. -/
theorem readData_no_data_C7 (dev : Device) (s : Adafruit_CCS811)
    (h : STATUS_DATA_READY dev.status = 0) :
    (Adafruit_CCS811.readData dev s).1 = PyRet.pyBool false
    ∧ (Adafruit_CCS811.readData dev s).2.2 = [BusOp.readU8 CCS811_STATUS] := by
  have ha := available_false dev s h
  simp [Adafruit_CCS811.readData, ha]

/-- Witness for C7 on a device whose status byte has DATA_READY clear. -/
theorem readData_no_data_C7_witness :
    STATUS_DATA_READY noDataDevice.status = 0
    ∧ ((Adafruit_CCS811.readData noDataDevice someState).1 = PyRet.pyBool false
      ∧ (Adafruit_CCS811.readData noDataDevice someState).2.2
          = [BusOp.readU8 CCS811_STATUS]) :=
  ⟨by decide, readData_no_data_C7 noDataDevice someState (by decide)⟩

/-- C8: for all inputs, `setThresholds` writes to the threshold register
exactly the 5-byte buffer whose byte 0 is the high byte of `low_med`
masked to its low nibble (4 bits: division by 2^8 then mod 2^4, not mod
2^8), byte 1 is `low_med` mod 2^4, bytes 2-3 likewise for `med_high`,
and byte 4 is `hysteresis` unmasked. -/
theorem setThresholds_buffer_C8 (low_med med_high hysteresis : Nat) :
    Adafruit_CCS811.setThresholds low_med med_high hysteresis
      = (CCS811_THRESHOLDS,
         [low_med / 2 ^ 8 % 2 ^ 4, low_med % 2 ^ 4,
          med_high / 2 ^ 8 % 2 ^ 4, med_high % 2 ^ 4, hysteresis]) := by
  have hmask : ∀ n : Nat, n &&& 0xF = n % 2 ^ 4 := by
    intro n
    have h15 : (0xF : Nat) = 2 ^ 4 - 1 := by norm_num
    rw [h15, Nat.and_pow_two_sub_one_eq_mod]
  simp [Adafruit_CCS811.setThresholds, Nat.shiftRight_eq_div_pow, hmask]

/-- C2 (code bug): the claim states `set_environmental_data(50.0, 25.0)`
succeeds and writes [0x64, 0x00, 0x64, 0x00].  The code instead raises
TypeError: `humidity << 1` shifts a float (source line 161) and
`math.fmod(temperature)` passes one argument to the two-argument `fmod`
(source line 163) - contradicting the function's own docstring, which
gives 0x64, 0x00 as the encoding of the 50% / 25 C defaults.  No buffer
is ever written; the second conjunct shows the call fails for every
input. -/
theorem setEnvironmentalData_raises_C2 :
    Adafruit_CCS811.setEnvironmentalData (PyNum.float 50) (PyNum.float 25)
        = Except.error PyError.typeError
    ∧ ∀ h t, ∃ e, Adafruit_CCS811.setEnvironmentalData h t = Except.error e := by
  constructor
  · rfl
  · intro h t
    cases h with
    | int n => exact ⟨PyError.typeError, rfl⟩
    | float q => exact ⟨PyError.typeError, rfl⟩

/-- C4: for every NTC payload whose big-endian vref word (bytes 0-1) is
zero, the temperature calculation fails with Python's ZeroDivisionError
(a defined, explicit error raised by `/` at source line 185) rather than
producing an infinity or NaN. -/
theorem calculateTemperature_zero_vref_C4 (buf : List Nat)
    (h : 256 * buf.getD 0 0 + buf.getD 1 0 = 0) :
    Adafruit_CCS811.calculateTemperature_rntc buf
      = Except.error PyError.zeroDivisionError := by
  have h0 : buf.getD 0 0 = 0 := by omega
  have h1 : buf.getD 1 0 = 0 := by omega
  have hv : ((buf.getD 0 0) <<< 8) ||| (buf.getD 1 0) = 0 := by
    rw [h0, h1]
    decide
  simp only [Adafruit_CCS811.calculateTemperature_rntc]
  rw [hv]
  simp [PyNum.div, PyNum.toRat]
  rfl

/-- Witness for C4 on the NTC payload [0, 0, 0, 100] (vref = 0,
vrntc = 100). -/
theorem calculateTemperature_zero_vref_C4_witness :
    256 * ([0, 0, 0, 100] : List Nat).getD 0 0 + ([0, 0, 0, 100] : List Nat).getD 1 0 = 0
    ∧ Adafruit_CCS811.calculateTemperature_rntc [0, 0, 0, 100]
        = Except.error PyError.zeroDivisionError :=
  ⟨by decide, calculateTemperature_zero_vref_C4 [0, 0, 0, 100] (by decide)⟩

/-- C3: on a successful read (DATA_READY set), the stored measurements
are the big-endian recombinations of payload bytes 0-1 (eCO2) and 2-3
(TVOC); in particular the payload [0x01, 0x90, 0x00, 0x32, 0, 0, 0, 0]
yields eCO2 = 400 and TVOC = 50. -/
theorem readData_bigendian_C3 (dev : Device) (s : Adafruit_CCS811)
    (hready : STATUS_DATA_READY dev.status ≠ 0)
    (hlen : dev.alg_result.length = 8)
    (hbytes : ∀ b ∈ dev.alg_result, b < 256) :
    (Adafruit_CCS811.readData dev s).2.1.eCO2
        = 256 * dev.alg_result.getD 0 0 + dev.alg_result.getD 1 0
    ∧ (Adafruit_CCS811.readData dev s).2.1.TVOC
        = 256 * dev.alg_result.getD 2 0 + dev.alg_result.getD 3 0
    ∧ (dev.alg_result = [0x01, 0x90, 0x00, 0x32, 0, 0, 0, 0] →
        (Adafruit_CCS811.readData dev s).2.1.eCO2 = 400
        ∧ (Adafruit_CCS811.readData dev s).2.1.TVOC = 50) := by
  have hb1 : dev.alg_result.getD 1 0 < 256 := getD_lt_of_forall _ 1 (by omega) hbytes
  have hb3 : dev.alg_result.getD 3 0 < 256 := getD_lt_of_forall _ 3 (by omega) hbytes
  have ha := available_true dev s hready
  have he1 : (Adafruit_CCS811.readData dev s).2.1.eCO2
      = ((dev.alg_result.getD 0 0) <<< 8) ||| (dev.alg_result.getD 1 0) := by
    simp only [Adafruit_CCS811.readData, ha]
    split <;> rfl
  have he2 : (Adafruit_CCS811.readData dev s).2.1.TVOC
      = ((dev.alg_result.getD 2 0) <<< 8) ||| (dev.alg_result.getD 3 0) := by
    simp only [Adafruit_CCS811.readData, ha]
    split <;> rfl
  have g1 : (Adafruit_CCS811.readData dev s).2.1.eCO2
      = 256 * dev.alg_result.getD 0 0 + dev.alg_result.getD 1 0 := by
    rw [he1, shiftLeft_lor_eq_add _ _ 8 hb1]
    norm_num
  have g2 : (Adafruit_CCS811.readData dev s).2.1.TVOC
      = 256 * dev.alg_result.getD 2 0 + dev.alg_result.getD 3 0 := by
    rw [he2, shiftLeft_lor_eq_add _ _ 8 hb3]
    norm_num
  refine ⟨g1, g2, fun heq => ?_⟩
  rw [g1, g2, heq]
  constructor <;> rfl

/-- Witness for C3 on a healthy device carrying that exact payload. -/
theorem readData_bigendian_C3_witness :
    STATUS_DATA_READY goodDevice.status ≠ 0
    ∧ goodDevice.alg_result.length = 8
    ∧ (∀ b ∈ goodDevice.alg_result, b < 256)
    ∧ ((Adafruit_CCS811.readData goodDevice someState).2.1.eCO2
          = 256 * goodDevice.alg_result.getD 0 0 + goodDevice.alg_result.getD 1 0
      ∧ (Adafruit_CCS811.readData goodDevice someState).2.1.TVOC
          = 256 * goodDevice.alg_result.getD 2 0 + goodDevice.alg_result.getD 3 0
      ∧ (goodDevice.alg_result = [0x01, 0x90, 0x00, 0x32, 0, 0, 0, 0] →
          (Adafruit_CCS811.readData goodDevice someState).2.1.eCO2 = 400
          ∧ (Adafruit_CCS811.readData goodDevice someState).2.1.TVOC = 50)) :=
  ⟨by decide, by decide, by decide,
   readData_bigendian_C3 goodDevice someState (by decide) (by decide) (by decide)⟩

/-- C5: on a successful read (DATA_READY set), `readData` returns payload
byte 5 (the device's raw error code) when the freshly refreshed status
mirror's ERROR bit is set, and the int 0 (the overloaded no-error
sentinel) otherwise. -/
theorem readData_error_byte_C5 (dev : Device) (s : Adafruit_CCS811)
    (hready : STATUS_DATA_READY dev.status ≠ 0) :
    (Adafruit_CCS811.readData dev s).1
      = if STATUS_ERROR dev.status ≠ 0
        then PyRet.pyInt (dev.alg_result.getD 5 0)
        else PyRet.pyInt 0 := by
  have ha := available_true dev s hready
  simp only [Adafruit_CCS811.readData, ha]
  by_cases he : STATUS_ERROR dev.status ≠ 0
  · simp [he]
  · simp [he]

/-- Witness for C5 on a device with both DATA_READY and ERROR set and
raw error code 0xAB in payload byte 5. -/
theorem readData_error_byte_C5_witness :
    STATUS_DATA_READY errorDevice.status ≠ 0
    ∧ (Adafruit_CCS811.readData errorDevice someState).1
        = if STATUS_ERROR errorDevice.status ≠ 0
          then PyRet.pyInt (errorDevice.alg_result.getD 5 0)
          else PyRet.pyInt 0 :=
  ⟨by decide, readData_error_byte_C5 errorDevice someState (by decide)⟩

/-- C10: whenever `readData` returns the no-data sentinel (Python
`False`), the stored measurements observed through `geteCO2` and
`getTVOC` are exactly those of the state before the call. -/
theorem readData_no_data_frame_C10 (dev : Device) (s : Adafruit_CCS811)
    (h : (Adafruit_CCS811.readData dev s).1 = PyRet.pyBool false) :
    Adafruit_CCS811.geteCO2 ((Adafruit_CCS811.readData dev s).2.1)
        = Adafruit_CCS811.geteCO2 s
    ∧ Adafruit_CCS811.getTVOC ((Adafruit_CCS811.readData dev s).2.1)
        = Adafruit_CCS811.getTVOC s := by
  by_cases hd : STATUS_DATA_READY dev.status = 0
  · have ha := available_false dev s hd
    simp [Adafruit_CCS811.readData, ha, Adafruit_CCS811.geteCO2, Adafruit_CCS811.getTVOC]
  · exfalso
    have ha := available_true dev s hd
    simp only [Adafruit_CCS811.readData, ha] at h
    split at h <;> simp at h

/-- Witness for C10: the no-data device leaves eCO2 = 123 and TVOC = 45
in place. -/
theorem readData_no_data_frame_C10_witness :
    (Adafruit_CCS811.readData noDataDevice someState).1 = PyRet.pyBool false
    ∧ (Adafruit_CCS811.geteCO2 ((Adafruit_CCS811.readData noDataDevice someState).2.1)
          = Adafruit_CCS811.geteCO2 someState
      ∧ Adafruit_CCS811.getTVOC ((Adafruit_CCS811.readData noDataDevice someState).2.1)
          = Adafruit_CCS811.getTVOC someState) :=
  ⟨by decide, readData_no_data_frame_C10 noDataDevice someState (by decide)⟩

/-- C1 (code bug): the claim states that after successful construction
the measurement-mode register holds DRIVE_MODE equal to the requested
mode.  The constructor validates `mode` (lines 62-63) but then calls
`setDriveMode(CCS811_DRIVE_MODE_1SEC)` at source line 99, ignoring it:
constructing with CCS811_DRIVE_MODE_250MS succeeds, yet the final
MEAS_MODE write is 0x10, whose DRIVE_MODE field (bits 4-6) is
CCS811_DRIVE_MODE_1SEC, not the requested CCS811_DRIVE_MODE_250MS. -/
theorem init_fixed_drive_mode_C1 :
    (Adafruit_CCS811.init CCS811_DRIVE_MODE_250MS goodDevice).1
        = Except.ok { meas_mode := { unused := 0, INT_THRESH := 0, INT_DATARDY := 0,
                                     DRIVE_MODE := CCS811_DRIVE_MODE_1SEC },
                      status := 0x98, eCO2 := 0, TVOC := 0 }
    ∧ (Adafruit_CCS811.init CCS811_DRIVE_MODE_250MS goodDevice).2.getLast?
        = some (BusOp.write8 CCS811_MEAS_MODE 0x10)
    ∧ (((0x10 : Nat) >>> 4) &&& 7) = CCS811_DRIVE_MODE_1SEC
    ∧ CCS811_DRIVE_MODE_1SEC ≠ CCS811_DRIVE_MODE_250MS :=
  ⟨rfl, rfl, rfl, by decide⟩

/-- Bits below the packing position are zero: every field of an encoding
that starts at position `pos` lies at or above bit `pos`. -/
theorem encodeFields_testBit_lt (l : List BField) (pos k : Nat) (hk : k < pos) :
    (encodeFields pos l).testBit k = false := by
  induction l generalizing pos with
  | nil => simp [encodeFields]
  | cons f rest ih =>
    rw [encodeFields, Nat.testBit_lor, Nat.testBit_shiftLeft,
        ih (pos + f.width) (by omega)]
    have h1 : ¬ (k ≥ pos) := by omega
    simp [h1]

/-- Inside field `i`'s bit range, the encoded byte carries exactly field
`i`'s value bits: bit `j` of field `i` (for `j` below the field's width)
appears at bit `pos + fieldPos l i + j` of the encoding. -/
theorem encodeFields_testBit_field (l : List BField) (pos i j : Nat)
    (hi : i < l.length) (hj : j < (l.get ⟨i, hi⟩).width) :
    (encodeFields pos l).testBit (pos + fieldPos l i + j)
      = (l.get ⟨i, hi⟩).val.testBit j := by
  induction l generalizing pos i with
  | nil => simp at hi
  | cons f rest ih =>
    cases i with
    | zero =>
      rw [encodeFields, Nat.testBit_lor, Nat.testBit_shiftLeft]
      have hrest : (encodeFields (pos + f.width) rest).testBit
          (pos + fieldPos (f :: rest) 0 + j) = false := by
        apply encodeFields_testBit_lt
        simp only [List.get] at hj
        simp only [fieldPos, List.take, List.map, List.sum_nil]
        omega
      rw [hrest, Bool.or_false]
      have hge : pos + fieldPos (f :: rest) 0 + j ≥ pos := by omega
      have hsub : pos + fieldPos (f :: rest) 0 + j - pos = j := by
        simp only [fieldPos, List.take, List.map, List.sum_nil]
        omega
      simp only [hge, decide_True, Bool.true_and, hsub]
      rw [Nat.testBit_land, Nat.testBit_two_pow_sub_one]
      simp only [List.get] at hj ⊢
      simp [hj]
    | succ n =>
      have hi2 : n < rest.length := by simpa using hi
      have hp : fieldPos (f :: rest) (n + 1) = f.width + fieldPos rest n := by
        simp [fieldPos]
      rw [encodeFields, Nat.testBit_lor, Nat.testBit_shiftLeft]
      have hidx : pos + fieldPos (f :: rest) (n + 1) + j
          = (pos + f.width) + fieldPos rest n + j := by omega
      have hq : (decide (pos + fieldPos (f :: rest) (n + 1) + j ≥ pos) &&
          (f.val &&& (2 ^ f.width - 1)).testBit
            (pos + fieldPos (f :: rest) (n + 1) + j - pos)) = false := by
        rw [Nat.testBit_land, Nat.testBit_two_pow_sub_one]
        have hbig : ¬ (pos + fieldPos (f :: rest) (n + 1) + j - pos < f.width) := by
          omega
        simp [hbig]
      rw [hq, Bool.false_or, hidx]
      have hget : (f :: rest).get ⟨n + 1, hi⟩ = rest.get ⟨n, hi2⟩ := rfl
      rw [hget]
      exact ih (pos + f.width) n hi2 (by rw [hget] at hj; exact hj)

/-- C9: for every valid layout (field widths summing to at most 8) and
every assignment of values to the fields, decoding field `i` out of the
encoded byte returns that field's value masked to its declared width:
the round-trip law with silent truncation. -/
theorem bitfield_roundtrip_C9 (l : List BField) (hw : (l.map BField.width).sum ≤ 8)
    (i : Nat) (hi : i < l.length) :
    decodeField (encodeFields 0 l) (fieldPos l i) ((l.get ⟨i, hi⟩).width)
      = (l.get ⟨i, hi⟩).val &&& (2 ^ ((l.get ⟨i, hi⟩).width) - 1) := by
  apply Nat.eq_of_testBit_eq
  intro j
  rw [decodeField, Nat.testBit_land, Nat.testBit_shiftRight, Nat.testBit_two_pow_sub_one,
      Nat.testBit_land, Nat.testBit_two_pow_sub_one]
  by_cases hj : j < (l.get ⟨i, hi⟩).width
  · have h := encodeFields_testBit_field l 0 i j hi hj
    rw [Nat.zero_add] at h
    rw [h]
  · rw [decide_eq_false hj]
    simp

/-- Witness for C9: the example layout (widths 1 + 2 + 1 ≤ 8), decoding
field 2 (DATA_READY, stored value 3) returns 3 masked to 1 bit. -/
theorem bitfield_roundtrip_C9_witness :
    (exampleLayout.map BField.width).sum ≤ 8
    ∧ 2 < exampleLayout.length
    ∧ decodeField (encodeFields 0 exampleLayout) (fieldPos exampleLayout 2)
        ((exampleLayout.get ⟨2, by decide⟩).width)
        = (exampleLayout.get ⟨2, by decide⟩).val
            &&& (2 ^ ((exampleLayout.get ⟨2, by decide⟩).width) - 1) :=
  ⟨by decide, by decide, bitfield_roundtrip_C9 exampleLayout (by decide) 2 (by decide)⟩
